import Mathlib

/-!
Shallow embedding of `arch/arm/mach-omap2/remoteproc.c` (OMAP4 remote
processor machine-specific module) and proofs about its specification.

The C file is sequential and interacts with collaborators (hwmod layer,
dmtimer driver, platform-device core, CMA allocator) only through
synchronous calls returning statuses or handles.  We model each
collaborator by an environment record of result oracles and make every
function return, besides its C return value, the ordered list of
collaborator calls it performed (its trace) and the updated state.
Machine integers are modelled as `Int` (statuses) and `Nat` (handles,
addresses); NULL-able pointers become `Option`.
-/

/-- Linux `EINVAL` errno value; the C code returns `-EINVAL`. -/
def EINVAL : Int := 22

/-- Linux `EBUSY` errno value; the C code returns `-EBUSY`. -/
def EBUSY : Int := 16

/-! ## Reset/power callbacks (`omap_rproc_device_enable` / `omap_rproc_device_shutdown`)

Both callbacks dispatch on the platform device's formatted name
(`dev_name(&pdev->dev)`), so the embedding takes the device-name string
directly.  The hwmod-layer collaborators are modelled by `ResetEnv`:
per-line hardreset statuses and the statuses of `omap_device_enable` /
`omap_device_idle`. -/

/-- A call made by the reset/power callbacks on the hwmod layer. -/
inductive REvent where
  | deassertHardreset (line : String)
  | assertHardreset (line : String)
  | deviceEnableHw
  | deviceIdle
  deriving DecidableEq, Repr

/-- Result oracles for the hwmod-layer collaborators used by the
reset/power callbacks. -/
structure ResetEnv where
  idleRet : Int
  enableRet : Int
  assertRet : String → Int
  deassertRet : String → Int

/-- Embedding of `omap_rproc_device_enable` (remoteproc.c lines 154-180).
De-asserts the hardreset lines for the processor named by `devName`
(`"dsp"` for `"omap-rproc.0"`; `"cpu1"` then `"cpu0"` for
`"omap-rproc.1"`), aborting on the first non-zero status, then calls
`omap_device_enable`.  Unknown names return `-EINVAL` having made no
call. -/
def omap_rproc_device_enable (env : ResetEnv) (devName : String) :
    Int × List REvent :=
  if devName = "omap-rproc.0" then
    let r := env.deassertRet "dsp"
    if r ≠ 0 then (r, [.deassertHardreset "dsp"])
    else (env.enableRet, [.deassertHardreset "dsp", .deviceEnableHw])
  else if devName = "omap-rproc.1" then
    let r1 := env.deassertRet "cpu1"
    if r1 ≠ 0 then (r1, [.deassertHardreset "cpu1"])
    else
      let r0 := env.deassertRet "cpu0"
      if r0 ≠ 0 then (r0, [.deassertHardreset "cpu1", .deassertHardreset "cpu0"])
      else (env.enableRet,
        [.deassertHardreset "cpu1", .deassertHardreset "cpu0", .deviceEnableHw])
  else (-EINVAL, [])

/-- Embedding of `omap_rproc_device_shutdown` (remoteproc.c lines 129-152).
First calls `omap_device_idle` unconditionally and propagates a non-zero
status; then asserts the hardreset lines (`"dsp"`, or `"cpu0"` then
`"cpu1"`).  For an unknown name the C code logs and returns `ret`, which
at that point holds the (zero) status of the idle call: the initial
`-EINVAL` was overwritten by `ret = omap_device_idle(pdev)`. -/
def omap_rproc_device_shutdown (env : ResetEnv) (devName : String) :
    Int × List REvent :=
  let r := env.idleRet
  if r ≠ 0 then (r, [.deviceIdle])
  else if devName = "omap-rproc.0" then
    (env.assertRet "dsp", [.deviceIdle, .assertHardreset "dsp"])
  else if devName = "omap-rproc.1" then
    let r0 := env.assertRet "cpu0"
    if r0 ≠ 0 then (r0, [.deviceIdle, .assertHardreset "cpu0"])
    else (env.assertRet "cpu1",
      [.deviceIdle, .assertHardreset "cpu0", .assertHardreset "cpu1"])
  else (r, [.deviceIdle])

/-- A reset environment in which every collaborator call succeeds. -/
def resetEnvOk : ResetEnv :=
  { idleRet := 0, enableRet := 0, assertRet := fun _ => 0, deassertRet := fun _ => 0 }

/-! ## Timer data and callbacks (`omap_rproc_enable_timers` / `omap_rproc_disable_timers`)

`struct omap_rproc_timers_info` has a capability tag `cap`, a legacy
numeric `id` and the acquired dmtimer handle pointer `odt` (NULL when not
acquired).  The capability constants (`OMAP_TIMER_HAS_IPU_IRQ`,
`OMAP_TIMER_HAS_DSP_IRQ`) and the clock-source constant
(`OMAP_TIMER_SRC_SYS_CLK`) come from the external header
`plat/dmtimer.h` and are purely symbolic here.  Timer handles are
modelled as `Nat`; `odt : Option Nat` is the NULL-able handle field. -/

/-- Symbolic dmtimer capability tags (from the external `plat/dmtimer.h`). -/
inductive TimerCap where
  | hasIpuIrq
  | hasDspIrq
  deriving DecidableEq, Repr

/-- Symbolic dmtimer clock sources; the code only ever selects the system
clock (`OMAP_TIMER_SRC_SYS_CLK`). -/
inductive ClockSrc where
  | sysClk
  deriving DecidableEq, Repr

/-- Embedding of `struct omap_rproc_timers_info`. -/
structure TimerSpec where
  cap : TimerCap
  id : Int
  odt : Option Nat
  deriving DecidableEq, Repr

/-- Result oracles for the dmtimer collaborators.  A request result of
`none` models the driver returning NULL. -/
structure TimerEnv where
  dtPopulated : Bool
  requestByCap : TimerCap → Option Nat
  requestSpecific : Int → Option Nat

/-- A call made on the dmtimer driver. -/
inductive TEvent where
  | requestByCap (cap : TimerCap) (res : Option Nat)
  | requestSpecific (id : Int) (res : Option Nat)
  | setSource (h : Nat) (src : ClockSrc)
  | start (h : Option Nat)
  | stop (h : Option Nat)
  | free (h : Option Nat)
  deriving DecidableEq, Repr

/-- The handle returned by the request that `omap_rproc_enable_timers`
issues for timer `t`: by capability when the device tree is populated,
by legacy id otherwise. -/
def reqRes (env : TimerEnv) (t : TimerSpec) : Option Nat :=
  if env.dtPopulated then env.requestByCap t.cap else env.requestSpecific t.id

/-- The dmtimer request call issued for timer `t` (with its result). -/
def reqEvent (env : TimerEnv) (t : TimerSpec) : TEvent :=
  if env.dtPopulated then .requestByCap t.cap (env.requestByCap t.cap)
  else .requestSpecific t.id (env.requestSpecific t.id)

/-- The acquisition loop of `omap_rproc_enable_timers` (the
`if (configure)` loop together with the `free_timers` rollback,
remoteproc.c lines 192-231).  For each timer in order: request it and
store the result in `odt`; on a NULL result set `ret = -EBUSY` and free
the previously acquired timers in reverse order, clearing their `odt`
fields; on success set the timer's clock source to the system clock.
Returns the status, the updated timer list and the dmtimer trace. -/
def acquireTimers (env : TimerEnv) : List TimerSpec → Int × List TimerSpec × List TEvent
  | [] => (0, [], [])
  | t :: ts =>
    match reqRes env t with
    | none => (-EBUSY, { t with odt := none } :: ts, [reqEvent env t])
    | some hh =>
      let rest := acquireTimers env ts
      if rest.1 = 0 then
        (0, { t with odt := some hh } :: rest.2.1,
          reqEvent env t :: .setSource hh .sysClk :: rest.2.2)
      else
        (rest.1, { t with odt := none } :: rest.2.1,
          (reqEvent env t :: .setSource hh .sysClk :: rest.2.2) ++ [.free (some hh)])

/-- Embedding of `struct omap_rproc_pdata`, the per-remote-processor
platform descriptor.  `timers = none` models a NULL `timers` pointer and
`timers_cnt` is the length of the carried list (in the static data the
count is `ARRAY_SIZE` of the array).  The four callback slots are
function pointers in C, always either NULL or the fixed functions of
this file, so they are modelled as installed/not-installed booleans;
likewise `set_bootaddr` records whether the boot-address callback is
present. -/
structure Pdata where
  name : String
  firmware : String
  mbox_name : String
  oh_name : String
  oh_name_opt : Option String
  timers : Option (List TimerSpec)
  set_bootaddr : Bool
  device_enable : Bool
  device_shutdown : Bool
  enable_timers : Bool
  disable_timers : Bool
  deriving DecidableEq, Repr

/-- Embedding of `omap_rproc_enable_timers` (remoteproc.c lines 182-232).
Rejects a NULL `timers` pointer with `-EINVAL`; when `configure` runs
the acquisition loop (aborting with its status on failure); finally
starts every timer in order and returns 0. -/
def omap_rproc_enable_timers (env : TimerEnv) (pdata : Pdata) (configure : Bool) :
    Int × Pdata × List TEvent :=
  match pdata.timers with
  | none => (-EINVAL, pdata, [])
  | some ts =>
    if configure then
      let acq := acquireTimers env ts
      if acq.1 ≠ 0 then (acq.1, { pdata with timers := some acq.2.1 }, acq.2.2)
      else (0, { pdata with timers := some acq.2.1 },
        acq.2.2 ++ acq.2.1.map (fun t => .start t.odt))
    else (0, pdata, ts.map (fun t => .start t.odt))

/-- The dmtimer trace of `omap_rproc_disable_timers`: each timer is
stopped in order, and additionally freed when `configure` is set. -/
def disableTrace (configure : Bool) : List TimerSpec → List TEvent
  | [] => []
  | t :: ts =>
    TEvent.stop t.odt :: ((if configure then [TEvent.free t.odt] else []) ++
      disableTrace configure ts)

/-- Embedding of `omap_rproc_disable_timers` (remoteproc.c lines 234-249).
Stops each timer in order; when `configure` also frees it and clears its
`odt` field.  Always returns 0; the device name is never examined.  (A
NULL `timers` pointer with the repository's length-derived count of zero
makes the loop vacuous.) -/
def omap_rproc_disable_timers (pdata : Pdata) (configure : Bool) :
    Int × Pdata × List TEvent :=
  match pdata.timers with
  | none => (0, pdata, [])
  | some ts =>
    let ts' := if configure then ts.map (fun t => { t with odt := none }) else ts
    (0, { pdata with timers := some ts' }, disableTrace configure ts)

/-- Static `ipu_timers` table: one timer, capability
`OMAP_TIMER_HAS_IPU_IRQ`, legacy id 3 (remoteproc.c lines 54-58). -/
def ipu_timers : List TimerSpec := [{ cap := .hasIpuIrq, id := 3, odt := none }]

/-- Static `dsp_timers` table: one timer, capability
`OMAP_TIMER_HAS_DSP_IRQ`, legacy id 5 (remoteproc.c lines 60-64). -/
def dsp_timers : List TimerSpec := [{ cap := .hasDspIrq, id := 5, odt := none }]

/-! ## Static descriptor tables

We model the configuration with both `CONFIG_OMAP_REMOTEPROC_DSP` and
`CONFIG_OMAP_REMOTEPROC_IPU` enabled, giving the full two-entry tables
(DSP first), exactly as the `#ifdef` blocks lay them out. -/

/-- Static `omap4_rproc_data` descriptor table (remoteproc.c lines 74-96).
Neither entry sets `oh_name_opt`; the four callback slots start NULL. -/
def omap4_rproc_data : List Pdata :=
  [{ name := "dsp_c0", firmware := "tesla-dsp.xe64T", mbox_name := "mbox-dsp",
     oh_name := "dsp", oh_name_opt := none, timers := some dsp_timers,
     set_bootaddr := true, device_enable := false, device_shutdown := false,
     enable_timers := false, disable_timers := false },
   { name := "ipu_c0", firmware := "ducati-m3-core0.xem3", mbox_name := "mbox-ipu",
     oh_name := "ipu", oh_name_opt := none, timers := some ipu_timers,
     set_bootaddr := false, device_enable := false, device_shutdown := false,
     enable_timers := false, disable_timers := false }]

/-- Static `omap4_rproc_iommu` table of IOMMU binding names
(remoteproc.c lines 98-105). -/
def omap4_rproc_iommu : List String := ["mmu_dsp", "mmu_ipu"]

/-! ## Device constructor (`omap_rproc_init`)

The constructor walks the descriptor table, resolves hwmod handles,
installs the four callback slots, initializes and names the platform
device, allocates the omap device wrapper, attaches the descriptor as
platform data, binds the IOMMU record and registers the device.  The
mutable state is the descriptor table together with the platform
devices; collaborator results come from `InitEnv`, indexed where needed
by the descriptor index (each collaborator is called at most once per
descriptor). -/

/-- Embedding of `struct platform_device` together with the boot-time
state this module drives it through.  `devName` is the formatted
`dev_name` (`"<name>.<id>"`, `none` before `dev_set_name`);
`hasOmapDevice` tracks the allocated omap-device wrapper (`od`);
`iommu` is the `archdata.iommu` back-reference, as an index into
`omap4_rproc_iommu`; `pdataAttached` is the deep-copied platform data. -/
structure PDev where
  name : String
  id : Int
  devName : Option String
  devInited : Bool
  iommu : Option Nat
  hasOmapDevice : Bool
  registered : Bool
  pdataAttached : Option Pdata
  deriving DecidableEq, Repr

/-- Static `omap4_tesla` platform device (remoteproc.c lines 107-112). -/
def omap4_tesla : PDev :=
  { name := "omap-rproc", id := 0, devName := none, devInited := false,
    iommu := none, hasOmapDevice := false, registered := false,
    pdataAttached := none }

/-- Static `omap4_ducati` platform device (remoteproc.c lines 113-118). -/
def omap4_ducati : PDev := { omap4_tesla with id := 1 }

/-- The mutable state touched by `omap_rproc_init`: the descriptor table
and the platform devices of `omap4_rproc_devs` (index-aligned). -/
structure InitState where
  rproc_data : List Pdata
  pdevs : List PDev
  deriving DecidableEq, Repr

/-- The static initial state: the full descriptor table and the two
platform devices `omap4_tesla`, `omap4_ducati`. -/
def initState0 : InitState :=
  { rproc_data := omap4_rproc_data, pdevs := [omap4_tesla, omap4_ducati] }

/-- Default descriptor for out-of-range list reads (never hit on the
aligned static tables). -/
def dfltPdata : Pdata :=
  { name := "", firmware := "", mbox_name := "", oh_name := "",
    oh_name_opt := none, timers := none, set_bootaddr := false,
    device_enable := false, device_shutdown := false,
    enable_timers := false, disable_timers := false }

/-- Default platform device for out-of-range list reads. -/
def dfltPDev : PDev :=
  { name := "", id := 0, devName := none, devInited := false, iommu := none,
    hasOmapDevice := false, registered := false, pdataAttached := none }

/-- Result oracles for the collaborators of `omap_rproc_init`:
the SoC-family test, hwmod lookup by name (found or not), and — indexed
by descriptor — `omap_device_alloc` success, `platform_device_add_data`
status and `omap_device_register` status. -/
structure InitEnv where
  cpuIsOmap44xx : Bool
  hwmodFound : String → Bool
  allocOk : Nat → Bool
  addDataRet : Nat → Int
  registerRet : Nat → Int

/-- A collaborator call made by `omap_rproc_init` (with its result). -/
inductive IEvent where
  | lookup (name : String) (found : Bool)
  | devInit (i : Nat)
  | setName (i : Nat) (s : String)
  | alloc (i : Nat) (ok : Bool)
  | putDevice (i : Nat)
  | addData (i : Nat) (ret : Int)
  | deleteOd (i : Nat)
  | register (i : Nat) (ret : Int)
  deriving DecidableEq, Repr

/-- Installs the four runtime callbacks into a descriptor
(remoteproc.c lines 313-316). -/
def installSlots (d : Pdata) : Pdata :=
  { d with device_enable := true, device_shutdown := true,
           enable_timers := true, disable_timers := true }

/-- The hwmod-lookup phase for one descriptor (remoteproc.c lines
292-311): the primary `oh_name` lookup, then the optional
`oh_name_opt` lookup.  Returns whether all lookups succeeded, and the
lookup trace. -/
def hwmodPhase (env : InitEnv) (d : Pdata) : Bool × List IEvent :=
  if env.hwmodFound d.oh_name = false then (false, [.lookup d.oh_name false])
  else
    match d.oh_name_opt with
    | none => (true, [.lookup d.oh_name true])
    | some nOpt =>
      if env.hwmodFound nOpt = false then
        (false, [.lookup d.oh_name true, .lookup nOpt false])
      else (true, [.lookup d.oh_name true, .lookup nOpt true])

/-- Processing of descriptor `i` after its hwmod lookups succeeded
(remoteproc.c lines 313-350): install the callback slots, initialize
the device, set its name to `"<name>.<id>"`, allocate the omap device
(on NULL: put the device and record `ret = PTR_ERR(NULL) = 0`), attach
the descriptor copy as platform data (on failure delete/put), bind the
IOMMU record, register (on failure delete/put).  The first component is
the value this iteration leaves in the loop's `ret` variable. -/
def processRegistered (env : InitEnv) (st : InitState) (i : Nat) :
    Option Int × InitState × List IEvent :=
  let d := installSlots (st.rproc_data.getD i dfltPdata)
  let st1 : InitState := { st with rproc_data := st.rproc_data.set i d }
  let pdev := st1.pdevs.getD i dfltPDev
  let devN := pdev.name ++ "." ++ toString pdev.id
  let pdev2 := { pdev with devInited := true, devName := some devN }
  let evts := [IEvent.devInit i, IEvent.setName i devN]
  if env.allocOk i = false then
    (some 0, { st1 with pdevs := st1.pdevs.set i pdev2 },
      evts ++ [.alloc i false, .putDevice i])
  else
    let pdev3 := { pdev2 with hasOmapDevice := true }
    let rAdd := env.addDataRet i
    if rAdd ≠ 0 then
      (some rAdd,
       { st1 with pdevs := st1.pdevs.set i { pdev3 with hasOmapDevice := false } },
       evts ++ [.alloc i true, .addData i rAdd, .deleteOd i, .putDevice i])
    else
      let pdev4 := { pdev3 with pdataAttached := some d, iommu := some i }
      let rReg := env.registerRet i
      if rReg ≠ 0 then
        (some rReg,
         { st1 with pdevs := st1.pdevs.set i { pdev4 with hasOmapDevice := false } },
         evts ++ [.alloc i true, .addData i 0, .register i rReg, .deleteOd i, .putDevice i])
      else
        (some 0,
         { st1 with pdevs := st1.pdevs.set i { pdev4 with registered := true } },
         evts ++ [.alloc i true, .addData i 0, .register i 0])

/-- One iteration of the `omap_rproc_init` loop for descriptor `i`.
A failed lookup skips the descriptor without touching `ret` (first
component `none`). -/
def processDesc (env : InitEnv) (st : InitState) (i : Nat) :
    Option Int × InitState × List IEvent :=
  let d := st.rproc_data.getD i dfltPdata
  let looked := hwmodPhase env d
  if looked.1 then
    let next := processRegistered env st i
    (next.1, next.2.1, looked.2 ++ next.2.2)
  else (none, st, looked.2)

/-- The `omap_rproc_init` loop over the descriptor indices, threading
state and the local `ret` (updated only by iterations that reach past
the lookups). -/
def initLoop (env : InitEnv) : List Nat → InitState → Int → Int × InitState × List IEvent
  | [], _st, ret => (ret, _st, [])
  | i :: rest, st, ret =>
    let step := processDesc env st i
    let next := initLoop env rest step.2.1 (step.1.getD ret)
    (next.1, next.2.1, step.2.2 ++ next.2.2)

/-- Embedding of `omap_rproc_init` (remoteproc.c lines 275-354).
On a non-OMAP44xx SoC it returns 0 at once, with no collaborator call
and no state change; otherwise it runs the loop over all descriptor
indices with `ret` starting at 0. -/
def omap_rproc_init (env : InitEnv) (st : InitState) : Int × InitState × List IEvent :=
  if env.cpuIsOmap44xx = false then (0, st, [])
  else initLoop env (List.range st.rproc_data.length) st 0

/-- The status an `omap_rproc_init` iteration leaves in `ret` once past
the lookups: `0` when `omap_device_alloc` fails (`PTR_ERR(NULL)`),
otherwise the `platform_device_add_data` status if non-zero, otherwise
the `omap_device_register` status. -/
def stepStatus (env : InitEnv) (i : Nat) : Int :=
  if env.allocOk i = false then 0
  else if env.addDataRet i ≠ 0 then env.addDataRet i
  else env.registerRet i

/-- The effect of descriptor `i` on `ret`: `none` when a hwmod lookup
fails (the descriptor is skipped), `some (stepStatus env i)` otherwise. -/
def descStatus (env : InitEnv) (d : Pdata) (i : Nat) : Option Int :=
  if env.hwmodFound d.oh_name = false then none
  else
    match d.oh_name_opt with
    | none => some (stepStatus env i)
    | some nOpt =>
      if env.hwmodFound nOpt = false then none else some (stepStatus env i)

/-- Whether every hwmod lookup of descriptor `d` succeeds in `env`. -/
def lookupsOk (env : InitEnv) (d : Pdata) : Bool :=
  env.hwmodFound d.oh_name &&
    (match d.oh_name_opt with | none => true | some nOpt => env.hwmodFound nOpt)

/-- Whether every step of descriptor `i` (data `d`) succeeds in `env`. -/
def descOk (env : InitEnv) (d : Pdata) (i : Nat) : Bool :=
  lookupsOk env d && env.allocOk i &&
    (env.addDataRet i == 0) && (env.registerRet i == 0)

/-- The status an init-trace event reports, when non-zero
(`platform_device_add_data` and `omap_device_register` are the steps
that return statuses). -/
def evStatus : IEvent → Option Int
  | .addData _ r => if r = 0 then none else some r
  | .register _ r => if r = 0 then none else some r
  | _ => none

/-- The latest non-zero step status reported in an init trace. -/
def lastNonzeroStatus (tr : List IEvent) : Option Int :=
  (tr.filterMap evStatus).getLast?

/-! ## CMA reservation hook (`omap_rproc_reserve_cma`) -/

/-- `OMAP_RPROC_CMA_BASE_IPU` (remoteproc.c line 44). -/
def OMAP_RPROC_CMA_BASE_IPU : Nat := 0x99000000

/-- `OMAP_RPROC_CMA_BASE_DSP` (remoteproc.c line 45). -/
def OMAP_RPROC_CMA_BASE_DSP : Nat := 0x98800000

/-- The two static platform devices whose `dev` records the CMA hook
reserves memory against. -/
inductive RDev where
  | tesla
  | ducati
  deriving DecidableEq, Repr

/-- Oracles for the CMA hook: the `dma_declare_contiguous` status per
device, and the configured sizes `CONFIG_OMAP_TESLA_CMA_SIZE` /
`CONFIG_OMAP_DUCATI_CMA_SIZE`. -/
structure CmaEnv where
  declareRet : RDev → Int
  teslaSize : Nat
  ducatiSize : Nat

/-- A `dma_declare_contiguous(dev, size, base, limit)` call (with its
status). -/
inductive CEvent where
  | declareContiguous (dev : RDev) (size : Nat) (base : Nat) (limit : Nat) (ret : Int)
  deriving DecidableEq, Repr

/-- Embedding of `omap_rproc_reserve_cma` (remoteproc.c lines 251-273).
Requests a contiguous reservation for the DSP at
`OMAP_RPROC_CMA_BASE_DSP`, then for the IPU at
`OMAP_RPROC_CMA_BASE_IPU`; a non-zero status is only logged, so both
calls are always made. -/
def omap_rproc_reserve_cma (env : CmaEnv) : List CEvent :=
  [.declareContiguous .tesla env.teslaSize OMAP_RPROC_CMA_BASE_DSP 0
     (env.declareRet .tesla),
   .declareContiguous .ducati env.ducatiSize OMAP_RPROC_CMA_BASE_IPU 0
     (env.declareRet .ducati)]

/-! ## Concrete environments and inputs used by witnesses -/

/-- A timer environment (device tree populated) in which the request by
`HAS_IPU_IRQ` capability succeeds with handle 7 and the request by
`HAS_DSP_IRQ` capability fails. -/
def tEnvW : TimerEnv :=
  { dtPopulated := true,
    requestByCap := fun c => match c with | .hasIpuIrq => some 7 | .hasDspIrq => none,
    requestSpecific := fun _ => some 9 }

/-- A timer environment in which every request succeeds. -/
def tEnvOk : TimerEnv :=
  { dtPopulated := true,
    requestByCap := fun _ => some 7,
    requestSpecific := fun _ => some 9 }

/-- A timer with the IPU-interrupt capability (not yet acquired). -/
def timerA : TimerSpec := { cap := .hasIpuIrq, id := 3, odt := none }

/-- A timer with the DSP-interrupt capability (not yet acquired). -/
def timerB : TimerSpec := { cap := .hasDspIrq, id := 5, odt := none }

/-- A descriptor with a two-timer list. -/
def pdataW : Pdata := { dfltPdata with timers := some [timerA, timerB] }

/-- A descriptor whose timers pointer is non-NULL but whose timer
sequence is empty. -/
def pdataEmptyTimers : Pdata := { dfltPdata with timers := some [] }

/-- A descriptor carrying the static IPU timer list. -/
def pdataIpuW : Pdata := { dfltPdata with timers := some ipu_timers }

/-- An init environment on a non-OMAP44xx SoC. -/
def initEnvOff : InitEnv :=
  { cpuIsOmap44xx := false, hwmodFound := fun _ => true,
    allocOk := fun _ => true, addDataRet := fun _ => 0,
    registerRet := fun _ => 0 }

/-- An init environment in which every collaborator call succeeds. -/
def initEnvAllOk : InitEnv :=
  { cpuIsOmap44xx := true, hwmodFound := fun _ => true,
    allocOk := fun _ => true, addDataRet := fun _ => 0,
    registerRet := fun _ => 0 }

/-- An init environment in which descriptor 0 fails at registration
with status `-5` and descriptor 1 fails at `omap_device_alloc`. -/
def initEnvC4 : InitEnv :=
  { cpuIsOmap44xx := true, hwmodFound := fun _ => true,
    allocOk := fun i => i == 0, addDataRet := fun _ => 0,
    registerRet := fun i => if i == 0 then -5 else 0 }

/-! ## Trace classifiers and characterization lemmas for the timer callbacks -/

/-- Is this dmtimer call a request (by capability or by legacy id)? -/
def isRequest : TEvent → Bool
  | .requestByCap _ _ => true
  | .requestSpecific _ _ => true
  | _ => false

/-- Is this dmtimer call a `set_source`? -/
def isSetSource : TEvent → Bool
  | .setSource _ _ => true
  | _ => false

/-- Is this dmtimer call a `start`? -/
def isStart : TEvent → Bool
  | .start _ => true
  | _ => false

/-- Is this dmtimer call a `stop`? -/
def isStop : TEvent → Bool
  | .stop _ => true
  | _ => false

/-- Is this dmtimer call a `free`? -/
def isFree : TEvent → Bool
  | .free _ => true
  | _ => false

/-- The forward trace of a fully successful prefix of the acquisition
loop: for each timer its request call followed by the `set_source` call
on the returned handle. -/
def fwdTrace (env : TimerEnv) : List TimerSpec → List TEvent
  | [] => []
  | t :: ts =>
    reqEvent env t :: TEvent.setSource ((reqRes env t).getD 0) .sysClk :: fwdTrace env ts

theorem isRequest_reqEvent (env : TimerEnv) (t : TimerSpec) :
    isRequest (reqEvent env t) = true := by
  unfold reqEvent
  split <;> rfl

theorem isSetSource_reqEvent (env : TimerEnv) (t : TimerSpec) :
    isSetSource (reqEvent env t) = false := by
  unfold reqEvent
  split <;> rfl

theorem isFree_reqEvent (env : TimerEnv) (t : TimerSpec) :
    isFree (reqEvent env t) = false := by
  unfold reqEvent
  split <;> rfl

theorem isStart_reqEvent (env : TimerEnv) (t : TimerSpec) :
    isStart (reqEvent env t) = false := by
  unfold reqEvent
  split <;> rfl

/-- On an all-successful timer list the acquisition loop returns 0,
records each returned handle in the timer's `odt` field, and performs
the forward trace. -/
theorem acquireTimers_success (env : TimerEnv) :
    ∀ ts : List TimerSpec, (∀ t ∈ ts, (reqRes env t).isSome) →
    acquireTimers env ts =
      (0, ts.map (fun t => { t with odt := reqRes env t }), fwdTrace env ts) := by
  intro ts
  induction ts with
  | nil => intro _; rfl
  | cons t ts ih =>
    intro h
    obtain ⟨hh, hhh⟩ :=
      Option.isSome_iff_exists.mp (h t (List.mem_cons_self t ts))
    have hrest := ih (fun x hx => h x (List.mem_cons_of_mem t hx))
    simp [acquireTimers, hhh, hrest, fwdTrace]

/-- When the request for `tk` fails after every request for `pre`
succeeded, the acquisition loop returns `-EBUSY`, clears the `odt`
fields of `pre` and `tk`, leaves the rest untouched, and its trace is
the forward trace of `pre`, the failing request, then the frees of the
acquired handles in reverse order. -/
theorem acquireTimers_fail (env : TimerEnv) :
    ∀ (pre : List TimerSpec) (tk : TimerSpec) (post : List TimerSpec),
    (∀ t ∈ pre, (reqRes env t).isSome) → reqRes env tk = none →
    acquireTimers env (pre ++ tk :: post) =
      (-EBUSY,
       pre.map (fun t => { t with odt := none }) ++ { tk with odt := none } :: post,
       fwdTrace env pre ++ reqEvent env tk ::
         (pre.map (fun t => TEvent.free (reqRes env t))).reverse) := by
  intro pre
  induction pre with
  | nil =>
    intro tk post _ hk
    simp [acquireTimers, hk, fwdTrace]
  | cons t pre ih =>
    intro tk post h hk
    obtain ⟨hh, hhh⟩ :=
      Option.isSome_iff_exists.mp (h t (List.mem_cons_self t pre))
    have hrest := ih tk post (fun x hx => h x (List.mem_cons_of_mem t hx)) hk
    have hne : (-EBUSY : Int) ≠ 0 := by decide
    simp [acquireTimers, hhh, hrest, hne, fwdTrace, EBUSY]

theorem filter_isFree_fwdTrace (env : TimerEnv) :
    ∀ ts : List TimerSpec, (fwdTrace env ts).filter isFree = [] := by
  intro ts
  induction ts with
  | nil => rfl
  | cons t ts ih =>
    rw [fwdTrace, List.filter_cons, List.filter_cons, isFree_reqEvent]
    simp [isFree, ih]

theorem filter_isStart_fwdTrace (env : TimerEnv) :
    ∀ ts : List TimerSpec, (fwdTrace env ts).filter isStart = [] := by
  intro ts
  induction ts with
  | nil => rfl
  | cons t ts ih =>
    rw [fwdTrace, List.filter_cons, List.filter_cons, isStart_reqEvent]
    simp [isStart, ih]

theorem filter_isRequest_fwdTrace (env : TimerEnv) :
    ∀ ts : List TimerSpec,
      (fwdTrace env ts).filter isRequest = ts.map (reqEvent env) := by
  intro ts
  induction ts with
  | nil => rfl
  | cons t ts ih =>
    rw [fwdTrace, List.filter_cons, List.filter_cons, isRequest_reqEvent]
    simp [isRequest, ih]

theorem filter_isSetSource_fwdTrace (env : TimerEnv) :
    ∀ ts : List TimerSpec,
      (fwdTrace env ts).filter isSetSource =
        ts.map (fun t => TEvent.setSource ((reqRes env t).getD 0) .sysClk) := by
  intro ts
  induction ts with
  | nil => rfl
  | cons t ts ih =>
    rw [fwdTrace, List.filter_cons, List.filter_cons, isSetSource_reqEvent]
    simp [isSetSource, ih]

theorem filter_isFree_map_free (g : TimerSpec → Option Nat) (l : List TimerSpec) :
    (l.map (fun t => TEvent.free (g t))).filter isFree =
      l.map (fun t => TEvent.free (g t)) := by
  induction l with
  | nil => rfl
  | cons t l ih => simp [isFree, ih]

theorem filter_isStart_map_free (g : TimerSpec → Option Nat) (l : List TimerSpec) :
    (l.map (fun t => TEvent.free (g t))).filter isStart = [] := by
  induction l with
  | nil => rfl
  | cons t l ih => simp [isStart, ih]

theorem filter_isRequest_map_start (g : TimerSpec → Option Nat) (l : List TimerSpec) :
    (l.map (fun t => TEvent.start (g t))).filter isRequest = [] := by
  induction l with
  | nil => rfl
  | cons t l ih => simp [isRequest, ih]

theorem filter_isSetSource_map_start (g : TimerSpec → Option Nat) (l : List TimerSpec) :
    (l.map (fun t => TEvent.start (g t))).filter isSetSource = [] := by
  induction l with
  | nil => rfl
  | cons t l ih => simp [isSetSource, ih]

/-! # Claims -/

/-- Claim C1 counterexample: on the device name `"foo"` (neither
`"omap-rproc.0"` nor `"omap-rproc.1"`), with every collaborator
succeeding, `omap_rproc_device_shutdown` does not return `-EINVAL`
(it returns the 0 status of the idle call) and does perform a
hwmod-layer call (the power-idle call) — so the claim is false as
stated for `device_shutdown`. -/
theorem shutdown_unknown_name_counterexample :
    (omap_rproc_device_shutdown resetEnvOk "foo").1 ≠ -EINVAL ∧
    (omap_rproc_device_shutdown resetEnvOk "foo").2 ≠ [] := by
  decide

/-- Claim C1 (amended): for a device name that is neither
`"omap-rproc.0"` nor `"omap-rproc.1"`, `omap_rproc_device_enable`
returns `-EINVAL` having made no hwmod-layer call; but
`omap_rproc_device_shutdown` first performs the power-idle call
unconditionally and, for the unknown name, performs no hardreset call
and returns the idle status (zero when the idle succeeded, not
`-EINVAL`). -/
theorem unknown_device_rejected_amended (env : ResetEnv) (devName : String)
    (h0 : devName ≠ "omap-rproc.0") (h1 : devName ≠ "omap-rproc.1") :
    omap_rproc_device_enable env devName = (-EINVAL, []) ∧
    omap_rproc_device_shutdown env devName = (env.idleRet, [.deviceIdle]) := by
  constructor
  · simp [omap_rproc_device_enable, h0, h1]
  · simp only [omap_rproc_device_shutdown, h0, h1, if_false]
    split <;> simp

/-- Witness for `unknown_device_rejected_amended` at the concrete name
`"x"` and the all-success environment. -/
theorem unknown_device_rejected_amended_witness :
    omap_rproc_device_enable resetEnvOk "x" = (-EINVAL, []) ∧
    omap_rproc_device_shutdown resetEnvOk "x" = (resetEnvOk.idleRet, [.deviceIdle]) :=
  unknown_device_rejected_amended resetEnvOk "x" (by decide) (by decide)

/-- Claim C2: a full enable-then-shutdown cycle in which every
collaborator call succeeds performs, for the IPU (`"omap-rproc.1"`),
exactly `deassert("cpu1"), deassert("cpu0"), device_enable,
device_idle, assert("cpu0"), assert("cpu1")` and, for the DSP
(`"omap-rproc.0"`), exactly `deassert("dsp"), device_enable,
device_idle, assert("dsp")`; moreover inside each callback a failing
step aborts immediately, returning the failing status with the trace
stopping at the failing call. -/
theorem reset_power_cycle_sequence (env : ResetEnv) :
    ((env.deassertRet "cpu1" = 0 ∧ env.deassertRet "cpu0" = 0 ∧ env.enableRet = 0 ∧
      env.idleRet = 0 ∧ env.assertRet "cpu0" = 0 ∧ env.assertRet "cpu1" = 0) →
      (omap_rproc_device_enable env "omap-rproc.1").2 ++
        (omap_rproc_device_shutdown env "omap-rproc.1").2 =
        [.deassertHardreset "cpu1", .deassertHardreset "cpu0", .deviceEnableHw,
         .deviceIdle, .assertHardreset "cpu0", .assertHardreset "cpu1"]) ∧
    ((env.deassertRet "dsp" = 0 ∧ env.enableRet = 0 ∧ env.idleRet = 0 ∧
      env.assertRet "dsp" = 0) →
      (omap_rproc_device_enable env "omap-rproc.0").2 ++
        (omap_rproc_device_shutdown env "omap-rproc.0").2 =
        [.deassertHardreset "dsp", .deviceEnableHw, .deviceIdle,
         .assertHardreset "dsp"]) ∧
    (env.deassertRet "cpu1" ≠ 0 →
      omap_rproc_device_enable env "omap-rproc.1" =
        (env.deassertRet "cpu1", [.deassertHardreset "cpu1"])) ∧
    (env.deassertRet "cpu1" = 0 → env.deassertRet "cpu0" ≠ 0 →
      omap_rproc_device_enable env "omap-rproc.1" =
        (env.deassertRet "cpu0",
         [.deassertHardreset "cpu1", .deassertHardreset "cpu0"])) ∧
    (env.deassertRet "cpu1" = 0 → env.deassertRet "cpu0" = 0 →
      omap_rproc_device_enable env "omap-rproc.1" =
        (env.enableRet,
         [.deassertHardreset "cpu1", .deassertHardreset "cpu0", .deviceEnableHw])) ∧
    (env.deassertRet "dsp" ≠ 0 →
      omap_rproc_device_enable env "omap-rproc.0" =
        (env.deassertRet "dsp", [.deassertHardreset "dsp"])) ∧
    (env.deassertRet "dsp" = 0 →
      omap_rproc_device_enable env "omap-rproc.0" =
        (env.enableRet, [.deassertHardreset "dsp", .deviceEnableHw])) ∧
    (env.idleRet ≠ 0 → ∀ s : String,
      omap_rproc_device_shutdown env s = (env.idleRet, [.deviceIdle])) ∧
    (env.idleRet = 0 →
      omap_rproc_device_shutdown env "omap-rproc.0" =
        (env.assertRet "dsp", [.deviceIdle, .assertHardreset "dsp"])) ∧
    (env.idleRet = 0 → env.assertRet "cpu0" ≠ 0 →
      omap_rproc_device_shutdown env "omap-rproc.1" =
        (env.assertRet "cpu0", [.deviceIdle, .assertHardreset "cpu0"])) ∧
    (env.idleRet = 0 → env.assertRet "cpu0" = 0 →
      omap_rproc_device_shutdown env "omap-rproc.1" =
        (env.assertRet "cpu1",
         [.deviceIdle, .assertHardreset "cpu0", .assertHardreset "cpu1"])) := by
  refine ⟨?_, ?_, ?_, ?_, ?_, ?_, ?_, ?_, ?_, ?_, ?_⟩ <;>
    · intros
      simp_all [omap_rproc_device_enable, omap_rproc_device_shutdown]

/-- Witness for `reset_power_cycle_sequence`: the exact IPU cycle trace
at the all-success environment. -/
theorem reset_power_cycle_sequence_witness :
    (omap_rproc_device_enable resetEnvOk "omap-rproc.1").2 ++
      (omap_rproc_device_shutdown resetEnvOk "omap-rproc.1").2 =
      [.deassertHardreset "cpu1", .deassertHardreset "cpu0", .deviceEnableHw,
       .deviceIdle, .assertHardreset "cpu0", .assertHardreset "cpu1"] :=
  (reset_power_cycle_sequence resetEnvOk).1 (by decide)

/-- Claim C3: in `omap_rproc_enable_timers` with `configure` set, if the
request for timer `tk` fails after the requests for the prefix `pre`
succeeded, the function returns `-EBUSY`, frees the acquired timers in
reverse order, clears their `odt` fields (and `tk`'s, which received
the NULL result) leaving later timers untouched, and makes no
`dmtimer_start` call. -/
theorem enable_timers_rollback (env : TimerEnv) (pdata : Pdata)
    (pre : List TimerSpec) (tk : TimerSpec) (post : List TimerSpec)
    (hts : pdata.timers = some (pre ++ tk :: post))
    (hpre : ∀ t ∈ pre, (reqRes env t).isSome)
    (hk : reqRes env tk = none) :
    (omap_rproc_enable_timers env pdata true).1 = -EBUSY ∧
    (omap_rproc_enable_timers env pdata true).2.1.timers =
      some (pre.map (fun t => { t with odt := none }) ++
        { tk with odt := none } :: post) ∧
    ((omap_rproc_enable_timers env pdata true).2.2.filter isFree) =
      (pre.map (fun t => TEvent.free (reqRes env t))).reverse ∧
    ((omap_rproc_enable_timers env pdata true).2.2.filter isStart) = [] := by
  have hacq := acquireTimers_fail env pre tk post hpre hk
  have hne : (-EBUSY : Int) ≠ 0 := by decide
  refine ⟨?_, ?_, ?_, ?_⟩ <;>
    simp [omap_rproc_enable_timers, hts, hacq, hne, List.filter_append,
      List.filter_cons, filter_isFree_fwdTrace, filter_isStart_fwdTrace,
      isFree_reqEvent, isStart_reqEvent, filter_isFree_map_free,
      filter_isStart_map_free]

/-- Witness for `enable_timers_rollback`: two timers, the first request
succeeds with handle 7, the second fails. -/
theorem enable_timers_rollback_witness :
    (omap_rproc_enable_timers tEnvW pdataW true).1 = -EBUSY ∧
    (omap_rproc_enable_timers tEnvW pdataW true).2.1.timers =
      some ([timerA].map (fun t => { t with odt := none }) ++
        { timerB with odt := none } :: []) ∧
    ((omap_rproc_enable_timers tEnvW pdataW true).2.2.filter isFree) =
      ([timerA].map (fun t => TEvent.free (reqRes tEnvW t))).reverse ∧
    ((omap_rproc_enable_timers tEnvW pdataW true).2.2.filter isStart) = [] :=
  enable_timers_rollback tEnvW pdataW [timerA] timerB [] rfl
    (by simp [reqRes, tEnvW, timerA]) (by decide)

/-- Claim C5 counterexample: on a descriptor whose timers sequence is
empty but whose `timers` pointer is non-NULL, `omap_rproc_enable_timers`
does not return `-EINVAL` (it returns 0, for either value of
`configure`): only a NULL `timers` pointer is rejected. -/
theorem enable_timers_empty_counterexample :
    pdataEmptyTimers.timers.getD [] = [] ∧
    (omap_rproc_enable_timers tEnvW pdataEmptyTimers true).1 ≠ -EINVAL ∧
    (omap_rproc_enable_timers tEnvW pdataEmptyTimers false).1 ≠ -EINVAL := by
  decide

/-- Claim C5 (amended): `omap_rproc_enable_timers` on a descriptor with
a NULL `timers` pointer returns `-EINVAL` with no dmtimer call; on a
non-NULL but empty timers sequence it returns 0, also with no dmtimer
call; in both cases regardless of `configure` and with the descriptor
unchanged. -/
theorem enable_timers_empty_amended (env : TimerEnv) (pdata : Pdata)
    (configure : Bool) :
    (pdata.timers = none →
      omap_rproc_enable_timers env pdata configure = (-EINVAL, pdata, [])) ∧
    (pdata.timers = some [] →
      omap_rproc_enable_timers env pdata configure = (0, pdata, [])) := by
  constructor
  · intro h
    simp [omap_rproc_enable_timers, h]
  · intro h
    cases pdata
    simp only at h
    subst h
    cases configure <;> simp [omap_rproc_enable_timers, acquireTimers]

/-- Witness for `enable_timers_empty_amended` at the static default
descriptor (NULL timers) and at `pdataEmptyTimers`. -/
theorem enable_timers_empty_amended_witness :
    omap_rproc_enable_timers tEnvW dfltPdata true = (-EINVAL, dfltPdata, []) ∧
    omap_rproc_enable_timers tEnvW pdataEmptyTimers true = (0, pdataEmptyTimers, []) :=
  ⟨(enable_timers_empty_amended tEnvW dfltPdata true).1 rfl,
   (enable_timers_empty_amended tEnvW pdataEmptyTimers true).2 rfl⟩

/-- Claim C7: in `omap_rproc_enable_timers` with `configure` set, when
every request succeeds, each timer is requested by capability tag when
the device tree is populated and by its legacy id otherwise, the
returned handle is recorded in the timer's `odt` field, and each
acquired timer's clock source is set to the system clock; the static
DSP timer has legacy id 5 and the static IPU timer id 3. -/
theorem enable_timers_acquisition (env : TimerEnv) (pdata : Pdata)
    (ts : List TimerSpec) (hts : pdata.timers = some ts)
    (hok : ∀ t ∈ ts, (reqRes env t).isSome) :
    (omap_rproc_enable_timers env pdata true).1 = 0 ∧
    (omap_rproc_enable_timers env pdata true).2.1.timers =
      some (ts.map (fun t => { t with odt := reqRes env t })) ∧
    ((omap_rproc_enable_timers env pdata true).2.2.filter isRequest) =
      ts.map (fun t =>
        if env.dtPopulated then TEvent.requestByCap t.cap (env.requestByCap t.cap)
        else TEvent.requestSpecific t.id (env.requestSpecific t.id)) ∧
    ((omap_rproc_enable_timers env pdata true).2.2.filter isSetSource) =
      ts.map (fun t => TEvent.setSource ((reqRes env t).getD 0) ClockSrc.sysClk) ∧
    dsp_timers.map (fun t => t.id) = [5] ∧
    ipu_timers.map (fun t => t.id) = [3] := by
  have hacq := acquireTimers_success env ts hok
  refine ⟨?_, ?_, ?_, ?_, by decide, by decide⟩
  · simp [omap_rproc_enable_timers, hts, hacq]
  · simp [omap_rproc_enable_timers, hts, hacq]
  · simp only [omap_rproc_enable_timers, hts, hacq]
    simp [-List.map_map, List.filter_append, filter_isRequest_fwdTrace,
      filter_isRequest_map_start]
    exact fun a _ => rfl
  · simp only [omap_rproc_enable_timers, hts, hacq]
    simp [-List.map_map, List.filter_append, filter_isSetSource_fwdTrace,
      filter_isSetSource_map_start]

/-- Witness for `enable_timers_acquisition`: the IPU descriptor under a
populated device tree with all requests returning handle 7. -/
theorem enable_timers_acquisition_witness :
    (omap_rproc_enable_timers tEnvOk pdataIpuW true).1 = 0 ∧
    (omap_rproc_enable_timers tEnvOk pdataIpuW true).2.1.timers =
      some (ipu_timers.map (fun t => { t with odt := reqRes tEnvOk t })) ∧
    ((omap_rproc_enable_timers tEnvOk pdataIpuW true).2.2.filter isRequest) =
      ipu_timers.map (fun t =>
        if tEnvOk.dtPopulated then TEvent.requestByCap t.cap (tEnvOk.requestByCap t.cap)
        else TEvent.requestSpecific t.id (tEnvOk.requestSpecific t.id)) ∧
    ((omap_rproc_enable_timers tEnvOk pdataIpuW true).2.2.filter isSetSource) =
      ipu_timers.map (fun t => TEvent.setSource ((reqRes tEnvOk t).getD 0) ClockSrc.sysClk) ∧
    dsp_timers.map (fun t => t.id) = [5] ∧
    ipu_timers.map (fun t => t.id) = [3] :=
  enable_timers_acquisition tEnvOk pdataIpuW ipu_timers rfl
    (by simp [reqRes, tEnvOk, ipu_timers])

theorem filter_isStop_disableTrace (configure : Bool) :
    ∀ ts : List TimerSpec,
      (disableTrace configure ts).filter isStop =
        ts.map (fun t => TEvent.stop t.odt) := by
  intro ts
  induction ts with
  | nil => rfl
  | cons t ts ih => cases configure <;> simp [disableTrace, isStop, ih]

theorem filter_isFree_disableTrace (configure : Bool) :
    ∀ ts : List TimerSpec,
      (disableTrace configure ts).filter isFree =
        if configure then ts.map (fun t => TEvent.free t.odt) else [] := by
  intro ts
  induction ts with
  | nil => cases configure <;> rfl
  | cons t ts ih => cases configure <;> simp_all [disableTrace, isFree]

/-- Claim C10: `omap_rproc_disable_timers` on a descriptor with a
non-NULL timers list always returns 0 for both values of `configure`
(no device-identity check is made — the embedding never reads the
device name); it stops each timer in order, and when `configure` is set
also frees each timer and clears its `odt` field. -/
theorem disable_timers_total (pdata : Pdata) (ts : List TimerSpec)
    (configure : Bool) (hts : pdata.timers = some ts) :
    (omap_rproc_disable_timers pdata configure).1 = 0 ∧
    (omap_rproc_disable_timers pdata configure).2.1.timers =
      some (if configure then ts.map (fun t => { t with odt := none }) else ts) ∧
    ((omap_rproc_disable_timers pdata configure).2.2.filter isStop) =
      ts.map (fun t => TEvent.stop t.odt) ∧
    ((omap_rproc_disable_timers pdata configure).2.2.filter isFree) =
      (if configure then ts.map (fun t => TEvent.free t.odt) else []) := by
  refine ⟨?_, ?_, ?_, ?_⟩ <;>
    simp [omap_rproc_disable_timers, hts, filter_isStop_disableTrace,
      filter_isFree_disableTrace]

/-! ## Helper lemmas for `omap_rproc_init` -/

theorem getD_set_ne {α : Type _} (l : List α) (i j : Nat) (a d : α) (hij : i ≠ j) :
    (l.set i a).getD j d = l.getD j d := by
  simp [List.getD_eq_getElem?_getD, List.getElem?_set_ne hij]

theorem getD_set_self {α : Type _} (l : List α) (i : Nat) (a d : α)
    (hi : i < l.length) :
    (l.set i a).getD i d = a := by
  simp [List.getD_eq_getElem?_getD, List.getElem?_set_eq_of_lt a hi]

/-- The value an iteration of the init loop leaves in `ret` is
`descStatus` of the descriptor it processed. -/
theorem processDesc_ret (env : InitEnv) (st : InitState) (i : Nat) :
    (processDesc env st i).1 =
      descStatus env (st.rproc_data.getD i dfltPdata) i := by
  simp only [processDesc, hwmodPhase, processRegistered, descStatus, stepStatus]
  generalize st.rproc_data.getD i dfltPdata = d
  rcases hOpt : d.oh_name_opt with _ | nOpt <;>
    simp only [hOpt] <;> split_ifs <;> simp_all

/-- An iteration of the init loop does not touch other platform
devices. -/
theorem processDesc_pdevs_ne (env : InitEnv) (st : InitState) (i j : Nat)
    (hij : j ≠ i) :
    ((processDesc env st i).2.1).pdevs.getD j dfltPDev =
      st.pdevs.getD j dfltPDev := by
  have hset : ∀ (l : List PDev) (a : PDev),
      (l.set i a).getD j dfltPDev = l.getD j dfltPDev :=
    fun l a => getD_set_ne l i j a dfltPDev (Ne.symm hij)
  simp only [processDesc, hwmodPhase, processRegistered]
  generalize st.rproc_data.getD i dfltPdata = d
  rcases hOpt : d.oh_name_opt with _ | nOpt <;>
    simp only [hOpt] <;> split_ifs <;> simp_all [hset]

/-- An iteration of the init loop does not touch other descriptors. -/
theorem processDesc_rdata_ne (env : InitEnv) (st : InitState) (i j : Nat)
    (hij : j ≠ i) :
    ((processDesc env st i).2.1).rproc_data.getD j dfltPdata =
      st.rproc_data.getD j dfltPdata := by
  have hset : ∀ (l : List Pdata) (a : Pdata),
      (l.set i a).getD j dfltPdata = l.getD j dfltPdata :=
    fun l a => getD_set_ne l i j a dfltPdata (Ne.symm hij)
  simp only [processDesc, hwmodPhase, processRegistered]
  generalize st.rproc_data.getD i dfltPdata = d
  rcases hOpt : d.oh_name_opt with _ | nOpt <;>
    simp only [hOpt] <;> split_ifs <;> simp_all [hset]

/-- An iteration of the init loop preserves the number of platform
devices. -/
theorem processDesc_pdevs_len (env : InitEnv) (st : InitState) (i : Nat) :
    ((processDesc env st i).2.1).pdevs.length = st.pdevs.length := by
  simp only [processDesc, hwmodPhase, processRegistered]
  generalize st.rproc_data.getD i dfltPdata = d
  rcases hOpt : d.oh_name_opt with _ | nOpt <;>
    simp only [hOpt] <;> split_ifs <;> simp_all

/-- When every step of descriptor `i` succeeds, its iteration of the
init loop registers platform device `i` — regardless of what happened
to other descriptors. -/
theorem processDesc_registered (env : InitEnv) (st : InitState) (i : Nat)
    (hi : i < st.pdevs.length)
    (hok : descOk env (st.rproc_data.getD i dfltPdata) i = true) :
    ((processDesc env st i).2.1.pdevs.getD i dfltPDev).registered = true := by
  have hself : ∀ a : PDev, (st.pdevs.set i a).getD i dfltPDev = a :=
    fun a => getD_set_self st.pdevs i a dfltPDev hi
  simp only [List.getD_eq_getElem?_getD] at hself
  simp only [processDesc, hwmodPhase, processRegistered]
  generalize hd : st.rproc_data.getD i dfltPdata = d
  rw [hd] at hok
  rcases hOpt : d.oh_name_opt with _ | nOpt <;>
    simp only [descOk, lookupsOk, hOpt, Bool.and_eq_true, beq_iff_eq] at hok <;>
    simp [hOpt, hok.1, hok.2, hok.1.1, hok.1.2, hself]

/-- When the hwmod lookups of descriptor `i` succeed, its iteration of
the init loop installs all four callback slots into the descriptor —
regardless of the outcome of the later steps. -/
theorem processDesc_slots (env : InitEnv) (st : InitState) (i : Nat)
    (hi : i < st.rproc_data.length)
    (hlk : lookupsOk env (st.rproc_data.getD i dfltPdata) = true) :
    ((processDesc env st i).2.1.rproc_data.getD i dfltPdata) =
      installSlots (st.rproc_data.getD i dfltPdata) := by
  have hself : ∀ a : Pdata, (st.rproc_data.set i a).getD i dfltPdata = a :=
    fun a => getD_set_self st.rproc_data i a dfltPdata hi
  simp only [processDesc, hwmodPhase, processRegistered]
  generalize hd : st.rproc_data.getD i dfltPdata = d
  rw [hd] at hlk
  rcases hOpt : d.oh_name_opt with _ | nOpt <;>
    simp only [lookupsOk, hOpt, Bool.and_eq_true] at hlk <;>
    split_ifs <;> simp_all [hself]

/-- An iteration of the init loop preserves the number of descriptors. -/
theorem processDesc_rdata_len (env : InitEnv) (st : InitState) (i : Nat) :
    ((processDesc env st i).2.1).rproc_data.length = st.rproc_data.length := by
  simp only [processDesc, hwmodPhase, processRegistered]
  generalize st.rproc_data.getD i dfltPdata = d
  rcases hOpt : d.oh_name_opt with _ | nOpt <;>
    simp only [hOpt] <;> split_ifs <;> simp_all

/-- Closed-form unfolding of `omap_rproc_init` on the static state: the
loop processes descriptor 0 then descriptor 1 and combines their `ret`
effects and traces. -/
theorem init_unfold (env : InitEnv) (hcpu : env.cpuIsOmap44xx = true) :
    omap_rproc_init env initState0 =
      ((processDesc env (processDesc env initState0 0).2.1 1).1.getD
         ((processDesc env initState0 0).1.getD 0),
       (processDesc env (processDesc env initState0 0).2.1 1).2.1,
       (processDesc env initState0 0).2.2 ++
         (processDesc env (processDesc env initState0 0).2.1 1).2.2) := by
  have hr : List.range initState0.rproc_data.length = [0, 1] := rfl
  simp [omap_rproc_init, hcpu, hr, initLoop]

/-- A fully successful descriptor contributes `some 0` to `ret`. -/
theorem descStatus_of_descOk (env : InitEnv) (d : Pdata) (i : Nat)
    (hok : descOk env d i = true) :
    descStatus env d i = some 0 := by
  rcases hOpt : d.oh_name_opt with _ | nOpt <;>
    simp [descOk, lookupsOk, hOpt] at hok <;>
    simp [descStatus, stepStatus, hOpt, hok]

/-- Witness for `disable_timers_total`: the two-timer descriptor with
`configure` set. -/
theorem disable_timers_total_witness :
    (omap_rproc_disable_timers pdataW true).1 = 0 ∧
    (omap_rproc_disable_timers pdataW true).2.1.timers =
      some (if true then [timerA, timerB].map (fun t => { t with odt := none })
            else [timerA, timerB]) ∧
    ((omap_rproc_disable_timers pdataW true).2.2.filter isStop) =
      [timerA, timerB].map (fun t => TEvent.stop t.odt) ∧
    ((omap_rproc_disable_timers pdataW true).2.2.filter isFree) =
      (if true then [timerA, timerB].map (fun t => TEvent.free t.odt) else []) :=
  disable_timers_total pdataW [timerA, timerB] true rfl

/-- Claim C6: on a non-OMAP44xx SoC, `omap_rproc_init` returns 0
immediately, with no collaborator call (empty trace) and no state
mutation. -/
theorem init_non_omap44xx_noop (env : InitEnv) (st : InitState)
    (h : env.cpuIsOmap44xx = false) :
    omap_rproc_init env st = (0, st, []) := by
  simp [omap_rproc_init, h]

/-- Witness for `init_non_omap44xx_noop` at the static state. -/
theorem init_non_omap44xx_noop_witness :
    omap_rproc_init initEnvOff initState0 = (0, initState0, []) :=
  init_non_omap44xx_noop initEnvOff initState0 rfl

/-- Claim C4 counterexample: with descriptor 0 failing at registration
(status `-5`) and descriptor 1 failing at `omap_device_alloc`,
`omap_rproc_init` returns 0 — not the latest non-zero step status
(`-5`), because the alloc failure overwrote `ret` with
`PTR_ERR(NULL) = 0`. -/
theorem init_ret_counterexample :
    lastNonzeroStatus (omap_rproc_init initEnvC4 initState0).2.2 = some (-5) ∧
    (omap_rproc_init initEnvC4 initState0).1 = 0 ∧
    ¬ ((omap_rproc_init initEnvC4 initState0).1 =
        (lastNonzeroStatus (omap_rproc_init initEnvC4 initState0).2.2).getD 0) := by
  decide

/-- Claim C4 (amended): `omap_rproc_init` returns the `ret` value left
by the last descriptor that got past its hwmod lookups, where an
`omap_device_alloc` failure leaves 0 (`PTR_ERR` of NULL) and
`platform_device_add_data` / `omap_device_register` leave their own
status; per-descriptor failures do not stop later descriptors (a fully
successful descriptor is registered no matter what happened to the
others); and a pass in which every step of every descriptor succeeds
returns 0. -/
theorem init_error_accumulation_amended (env : InitEnv)
    (hcpu : env.cpuIsOmap44xx = true) :
    (omap_rproc_init env initState0).1 =
      (((List.range initState0.rproc_data.length).filterMap
          (fun i => descStatus env (initState0.rproc_data.getD i dfltPdata) i)).getLast?).getD
        0 ∧
    (∀ i, i < initState0.rproc_data.length →
      descOk env (initState0.rproc_data.getD i dfltPdata) i = true →
      ((omap_rproc_init env initState0).2.1.pdevs.getD i dfltPDev).registered = true) ∧
    ((∀ i, i < initState0.rproc_data.length →
        descOk env (initState0.rproc_data.getD i dfltPdata) i = true) →
      (omap_rproc_init env initState0).1 = 0) := by
  have hu := init_unfold env hcpu
  have hrd1 : (processDesc env initState0 0).2.1.rproc_data.getD 1 dfltPdata =
      initState0.rproc_data.getD 1 dfltPdata :=
    processDesc_rdata_ne env initState0 0 1 (by decide)
  have h0 := processDesc_ret env initState0 0
  have h1 := processDesc_ret env (processDesc env initState0 0).2.1 1
  rw [hrd1] at h1
  have hr : List.range initState0.rproc_data.length = [0, 1] := rfl
  have hL : (omap_rproc_init env initState0).1 =
      (descStatus env (initState0.rproc_data.getD 1 dfltPdata) 1).getD
        ((descStatus env (initState0.rproc_data.getD 0 dfltPdata) 0).getD 0) := by
    rw [hu, h0, h1]
  have hmain : (omap_rproc_init env initState0).1 =
      (((List.range initState0.rproc_data.length).filterMap
          (fun i => descStatus env (initState0.rproc_data.getD i dfltPdata) i)).getLast?).getD
        0 := by
    rw [hr]
    simp only [List.filterMap_cons, List.filterMap_nil]
    rcases hs0 : descStatus env (initState0.rproc_data.getD 0 dfltPdata) 0 with _ | a <;>
      rcases hs1 : descStatus env (initState0.rproc_data.getD 1 dfltPdata) 1 with _ | b <;>
      rw [hL, hs0, hs1] <;> simp
  have hS : (omap_rproc_init env initState0).2.1 =
      (processDesc env (processDesc env initState0 0).2.1 1).2.1 := by
    rw [hu]
  refine ⟨hmain, ?_, ?_⟩
  · intro i hi hok
    have hi2 : i < 2 := hi
    interval_cases i
    · rw [hS]
      have hne := processDesc_pdevs_ne env (processDesc env initState0 0).2.1 1 0
        (by decide)
      rw [hne]
      exact processDesc_registered env initState0 0 (by decide) hok
    · rw [hS]
      refine processDesc_registered env (processDesc env initState0 0).2.1 1 ?_ ?_
      · rw [processDesc_pdevs_len]
        decide
      · rw [hrd1]
        exact hok
  · intro hall
    rw [hmain, hr]
    have e0 : descStatus env (initState0.rproc_data.getD 0 dfltPdata) 0 = some 0 :=
      descStatus_of_descOk env _ 0 (hall 0 (by decide))
    have e1 : descStatus env (initState0.rproc_data.getD 1 dfltPdata) 1 = some 0 :=
      descStatus_of_descOk env _ 1 (hall 1 (by decide))
    simp only [List.filterMap_cons, List.filterMap_nil]
    rw [e0, e1]
    rfl

/-- Witness for `init_error_accumulation_amended`: the all-success
environment returns 0. -/
theorem init_error_accumulation_amended_witness :
    (omap_rproc_init initEnvAllOk initState0).1 = 0 :=
  (init_error_accumulation_amended initEnvAllOk rfl).2.2 (by decide)

/-- Claim C9: for every descriptor whose hwmod lookups succeed,
`omap_rproc_init` installs all four callback slots into the static
descriptor, whatever the outcome of the later per-descriptor steps
(`omap_device_alloc`, `platform_device_add_data`,
`omap_device_register`) — the installation precedes and does not depend
on them. -/
theorem init_installs_callbacks (env : InitEnv)
    (hcpu : env.cpuIsOmap44xx = true) (i : Nat)
    (hi : i < initState0.rproc_data.length)
    (hlk : lookupsOk env (initState0.rproc_data.getD i dfltPdata) = true) :
    (((omap_rproc_init env initState0).2.1.rproc_data.getD i dfltPdata).device_enable = true) ∧
    (((omap_rproc_init env initState0).2.1.rproc_data.getD i dfltPdata).device_shutdown = true) ∧
    (((omap_rproc_init env initState0).2.1.rproc_data.getD i dfltPdata).enable_timers = true) ∧
    (((omap_rproc_init env initState0).2.1.rproc_data.getD i dfltPdata).disable_timers = true) := by
  have hu := init_unfold env hcpu
  have hrd1 : (processDesc env initState0 0).2.1.rproc_data.getD 1 dfltPdata =
      initState0.rproc_data.getD 1 dfltPdata :=
    processDesc_rdata_ne env initState0 0 1 (by decide)
  have hS : (omap_rproc_init env initState0).2.1 =
      (processDesc env (processDesc env initState0 0).2.1 1).2.1 := by
    rw [hu]
  have hi2 : i < 2 := hi
  interval_cases i
  · rw [hS]
    have hne := processDesc_rdata_ne env (processDesc env initState0 0).2.1 1 0
      (by decide)
    rw [hne]
    rw [processDesc_slots env initState0 0 (by decide) hlk]
    simp [installSlots]
  · rw [hS]
    have hs := processDesc_slots env (processDesc env initState0 0).2.1 1
      (by rw [processDesc_rdata_len]; decide)
      (by rw [hrd1]; exact hlk)
    rw [hs, hrd1]
    simp [installSlots]

/-- Witness for `init_installs_callbacks`: the DSP descriptor in the
all-success environment. -/
theorem init_installs_callbacks_witness :
    (((omap_rproc_init initEnvAllOk initState0).2.1.rproc_data.getD 0 dfltPdata).device_enable = true) ∧
    (((omap_rproc_init initEnvAllOk initState0).2.1.rproc_data.getD 0 dfltPdata).device_shutdown = true) ∧
    (((omap_rproc_init initEnvAllOk initState0).2.1.rproc_data.getD 0 dfltPdata).enable_timers = true) ∧
    (((omap_rproc_init initEnvAllOk initState0).2.1.rproc_data.getD 0 dfltPdata).disable_timers = true) :=
  init_installs_callbacks initEnvAllOk rfl 0 (by decide) (by decide)

/-- Claim C8: `omap_rproc_reserve_cma` requests a contiguous
reservation of the configured size at fixed base `0x98800000` for the
DSP and `0x99000000` for the IPU; both calls are present in the trace
for every environment, so a failing status for one device neither
aborts the hook nor prevents the other reservation attempt. -/
theorem reserve_cma_fixed_bases (env : CmaEnv) :
    CEvent.declareContiguous .tesla env.teslaSize OMAP_RPROC_CMA_BASE_DSP 0
        (env.declareRet .tesla) ∈ omap_rproc_reserve_cma env ∧
    CEvent.declareContiguous .ducati env.ducatiSize OMAP_RPROC_CMA_BASE_IPU 0
        (env.declareRet .ducati) ∈ omap_rproc_reserve_cma env ∧
    OMAP_RPROC_CMA_BASE_DSP = 0x98800000 ∧
    OMAP_RPROC_CMA_BASE_IPU = 0x99000000 := by
  refine ⟨?_, ?_, rfl, rfl⟩ <;> simp [omap_rproc_reserve_cma]
